import Mathlib

/-!
Shallow embedding of the vehicle-rental application's availability, pricing,
reservation, delivery, return, fleet and fine logic (app.py, pdfgenerator.py),
with theorems checking the specification's claims against it.

Conventions: money is modelled as rationals, calendar dates as integer day
numbers (so `a - b` is the day difference `.days`), odometer readings as
integers, and nullable columns as `Option`.
-/

namespace Locadora

/-- Vehicle status constants: the STATUS_CARRO dictionary of pdfgenerator.py
(imported by app.py), as an association list in source order. -/
def STATUS_CARRO : List (String × String) :=
  [("DISPONIVEL", "Disponível"),
   ("LOCADO", "Locado"),
   ("RESERVADO", "Reservado"),
   ("INDISPONIVEL", "Indisponível"),
   ("EXCLUIDO", "Excluído")]

/-- Python dict subscript d[k]: the value when the key is present, a KeyError
carrying the missing key otherwise. -/
def dictGet (d : List (String × String)) (k : String) : Except String String :=
  match d.find? (fun p => p.1 == k) with
  | some p => Except.ok p.2
  | none => Except.error k

/-- app.py line 1492 (creation) and 1956-1957 (edit): the billable-day count
`max(1, (fim - inicio).days)`. -/
def diasPeriodo (dataIni dataFim : Int) : Int :=
  max 1 (dataFim - dataIni)

/-- app.py lines 1523-1527 (creation) and 1959-1963 (edit recompute): the raw
diaries charge before any discount; half the first day when the half-day flag is
set and the day count is positive. -/
def valorDiarias (diaria : ℚ) (dias : Int) (meiaDiaria : Bool) : ℚ :=
  if meiaDiaria ∧ 0 < dias then diaria * ((dias : ℚ) - 1) + diaria * (1 / 2)
  else diaria * (dias : ℚ)

/-- app.py line 1530 (simplified creation): total_diarias = max(0, valor_diarias −
desconto); this is the value INSERTed into reservas.total_diarias at line 1585. -/
def totalDiariasCriacao (diaria : ℚ) (dataIni dataFim : Int) (meiaDiaria : Bool)
    (desconto : ℚ) : ℚ :=
  max 0 (valorDiarias diaria (diasPeriodo dataIni dataFim) meiaDiaria - desconto)

/-- app.py lines 1955-1965: the edit-screen recompute of total_diarias when dates,
half-day flag or discount changed; the recomputed value (stored through the UPDATE
at line 2079) is the raw charge, with no discount subtracted. -/
def totalDiariasEditRecalc (diaria : ℚ) (dataIni dataFim : Int) (meiaDiaria : Bool) : ℚ :=
  valorDiarias diaria (diasPeriodo dataIni dataFim) meiaDiaria

/-- The specification's daily-charge formula (spec §4.2), stated from the spec's
words for comparison with the code's computation. -/
def chargeSpec (dailyRate : ℚ) (days : Int) (halfDayOnPickup : Bool) : ℚ :=
  if halfDayOnPickup then dailyRate * ((days : ℚ) - 1) + dailyRate * (1 / 2)
  else dailyRate * (days : ℚ)

/-- app.py lines 2616-2625 (Devolução): the km charge. When the driven km exceed
the stored franchise, the franchise variable is reset to zero before the
subtraction, so every driven km is billed; a NULL franchise is read as 0. -/
def custoKmDevolucao (kmSaida kmVolta : Int) (kmFranquia : Option Int)
    (precoKm : ℚ) : ℚ :=
  let rodados := kmVolta - kmSaida
  let franquia0 := kmFranquia.getD 0
  let franquia1 := if franquia0 < rodados then 0 else franquia0
  ((max 0 (rodados - franquia1) : Int) : ℚ) * precoKm

/-- app.py line 588 (receipt download): the km charge recomputed for a receipt of
the same reservation, using the plain excess-over-franchise formula. -/
def custoKmRecibo (kmSaida kmVolta : Int) (kmFranquia : Option Int)
    (precoKm : ℚ) : ℚ :=
  ((max 0 (kmVolta - kmSaida - kmFranquia.getD 0) : Int) : ℚ) * precoKm

/-- Inputs to the Devolução (return) flow, app.py lines 2556-2692: the stored
reservation values, the form fields, and the recorded odometer-out (`none` models
a value `int()` cannot parse, read as 0 at line 2558). -/
structure DevolucaoInput where
  totalDiariasStored : ℚ
  adiantamento : ℚ
  kmSaidaRec : Option Int
  kmVolta : Int
  kmFranquia : Option Int
  precoKm : ℚ
  valorLavagem : ℚ
  valorMultas : ℚ
  valorDanos : ℚ
  valorOutros : ℚ
  valorPagoForm : ℚ
deriving DecidableEq

/-- Fields persisted by the Devolução finalization UPDATEs, app.py lines
2796-2852, together with the payment variable used to compute them. -/
structure DevolucaoPersisted where
  statusRes : String
  reservaStatus : String
  kmVolta : Int
  valorTotal : ℚ
  totalDiarias : ℚ
  valorRestante : ℚ
  valorPago : ℚ
  statusCarro : String
  kmAtualCarro : Int
deriving DecidableEq

/-- app.py lines 2556-2560: km_saida_safe = int(reserva km_saida), falling back to
0 when the stored value cannot be parsed. -/
def kmSaidaSafe (inp : DevolucaoInput) : Int := inp.kmSaidaRec.getD 0

/-- The Devolução flow, app.py lines 2588-2852: the odometer-in form field has
min_value = km_saida_safe (line 2590), so a smaller value is rejected and the
return is not processed; otherwise the charges, totals and persisted fields are
computed as in the source (valor_total = subtotal before the advance; the payment
section only runs when total_final > 0; valor_restante floored at zero). -/
def devolucao (inp : DevolucaoInput) : Option DevolucaoPersisted :=
  if inp.kmVolta < kmSaidaSafe inp then none
  else
    let custoKm := custoKmDevolucao (kmSaidaSafe inp) inp.kmVolta inp.kmFranquia inp.precoKm
    let subtotalSemAdiantamento :=
      inp.totalDiariasStored + custoKm + inp.valorLavagem + inp.valorMultas +
        inp.valorDanos + inp.valorOutros
    let totalFinal := subtotalSemAdiantamento - inp.adiantamento
    let valorPago := if 0 < totalFinal then inp.valorPagoForm else 0
    let valorRestante := if 0 < totalFinal then max 0 (totalFinal - valorPago) else 0
    let valorRestanteFinal := if 0 < totalFinal then max 0 valorRestante else 0
    some { statusRes := "Finalizada", reservaStatus := "Finalizada",
           kmVolta := inp.kmVolta, valorTotal := subtotalSemAdiantamento,
           totalDiarias := inp.totalDiariasStored, valorRestante := valorRestanteFinal,
           valorPago := valorPago,
           statusCarro := "Disponível", kmAtualCarro := inp.kmVolta }

/-- A vehicle row, restricted to the columns the delivery and fleet claims touch. -/
structure Carro where
  status : String
  kmAtual : Int
deriving DecidableEq

/-- A reservation row, restricted to the columns the delivery claims touch. -/
structure Reserva where
  kmSaida : Int
  dataIni : Int
  dataFim : Int
  reservaStatus : String
  adiantamento : ℚ
  totalDiarias : ℚ
  desconto : ℚ
  meiaDiaria : Bool
  valorTotal : ℚ
  valorRestante : ℚ
deriving DecidableEq

/-- The two tables touched by the delivery transaction, keyed by row id. -/
structure DB where
  carros : List (Nat × Carro)
  reservas : List (Nat × Reserva)
deriving DecidableEq

/-- Row lookup by id (first match). -/
def dbLookup {α : Type} (l : List (Nat × α)) (id : Nat) : Option α :=
  (l.find? (fun p => p.1 == id)).map Prod.snd

/-- UPDATE ... WHERE id = %s over an association list; `none` models the source's
rowcount-0 check (the row is absent and the statement raises). -/
def dbUpdate {α : Type} (l : List (Nat × α)) (id : Nat) (f : α → α) :
    Option (List (Nat × α)) :=
  if l.any (fun p => p.1 == id) then
    some (l.map (fun p => if p.1 == id then (p.1, f p.2) else p))
  else none

/-- The vehicle-row mutation of finalizar_entrega, app.py lines 2315-2318: status
Locado, odometer set to the confirmed km. -/
def entregaCarroUpdate (kmConfirma : Int) (c : Carro) : Carro :=
  { c with status := "Locado", kmAtual := kmConfirma }

/-- The reservation-row mutation of finalizar_entrega, app.py lines 2322-2348:
odometer-out, actual departure date, status Locada, the caller-supplied advance
and remaining balance, and valor_total recomputed as diaria × max(1, data_fim −
data_saida). -/
def entregaReservaUpdate (kmConfirma dataSaida : Int)
    (adiantamento valorRestante diaria : ℚ) (dataFimRes : Int) (r : Reserva) :
    Reserva :=
  { r with kmSaida := kmConfirma, dataIni := dataSaida, reservaStatus := "Locada",
           adiantamento := adiantamento,
           valorTotal := diaria * ((max 1 (dataFimRes - dataSaida) : Int) : ℚ),
           valorRestante := valorRestante }

/-- finalizar_entrega, app.py lines 2300-2381: inside one transaction, update the
vehicle row, update the reservation row, then generate the contract (modelled by
the pdfOk flag since the generator is an external collaborator); a missing row or
a generation failure raises, and the exception handler rolls the transaction back,
leaving the database as it was. Returns the resulting database and a success
flag. -/
def finalizarEntrega (db : DB) (carroId reservaId : Nat) (kmConfirma : Int)
    (dataSaida : Int) (adiantamento valorRestante : ℚ) (diaria : ℚ)
    (dataFimRes : Int) (pdfOk : Bool) : DB × Bool :=
  match dbUpdate db.carros carroId (entregaCarroUpdate kmConfirma) with
  | none => (db, false)
  | some carros1 =>
    match dbUpdate db.reservas reservaId
        (entregaReservaUpdate kmConfirma dataSaida adiantamento valorRestante
          diaria dataFimRes) with
    | none => (db, false)
    | some reservas1 =>
      if pdfOk then ({ carros := carros1, reservas := reservas1 }, true)
      else (db, false)

/-- The simplified delivery submit handler, app.py lines 2423-2489: valor_previsto
is the stored total_diarias or, when that is zero, diaria × max(1, scheduled end −
scheduled start + 1); the amount collected now is added to the advance, and the
remaining balance max(0, valor_previsto − total paid) is computed by this caller
and handed to finalizar_entrega. -/
def entregaSubmit (db : DB) (carroId reservaId : Nat) (totalDiariasStored : ℚ)
    (dataIniRes dataFimRes : Int) (diaria : ℚ) (adiantamentoReserva : ℚ)
    (kmConfirma : Int) (dataSaida : Int) (valorPagoAgora : ℚ) (pdfOk : Bool) :
    DB × Bool :=
  let valorPrevisto :=
    if totalDiariasStored = 0 then ((max 1 (dataFimRes - dataIniRes + 1) : Int) : ℚ) * diaria
    else totalDiariasStored
  let totalPago := adiantamentoReserva + valorPagoAgora
  let valorRestante := max 0 (valorPrevisto - totalPago)
  finalizarEntrega db carroId reservaId kmConfirma dataSaida totalPago valorRestante
    diaria dataFimRes pdfOk

/-- A row of the reservas table as read by the availability query. -/
structure ReservaRow where
  carroId : Nat
  reservaStatus : String
  dataIni : Int
  dataFim : Int
deriving DecidableEq

/-- A row of the carros table as read by the availability query. -/
structure CarroRow where
  id : Nat
  status : String
deriving DecidableEq

/-- The blocking condition of the default availability query, app.py lines
484-495: an existing Reservada/Locada reservation with data_inicio ≤ requested
end and data_fim ≥ requested start. -/
def blocksDefault (r : ReservaRow) (dataIni dataFim : Int) : Bool :=
  (r.reservaStatus == "Reservada" || r.reservaStatus == "Locada") &&
    (decide (r.dataIni ≤ dataFim) && decide (dataIni ≤ r.dataFim))

/-- The blocking condition of the availability query with the same-day turnover
flag, app.py lines 466-482: strict inequalities on both bounds. -/
def blocksTurnover (r : ReservaRow) (dataIni dataFim : Int) : Bool :=
  (r.reservaStatus == "Reservada" || r.reservaStatus == "Locada") &&
    (decide (r.dataIni < dataFim) && decide (dataIni < r.dataFim))

/-- get_available_vehicles, app.py lines 456-497: the vehicles whose status is not
Indisponível or Excluído and which have no blocking reservation; the
permitirDiaDevolucao flag selects the strict (turnover) overlap test. -/
def getAvailableVehicles (carros : List CarroRow) (reservas : List ReservaRow)
    (dataIni dataFim : Int) (permitirDiaDevolucao : Bool) : List CarroRow :=
  carros.filter (fun c =>
    !(c.status == "Indisponível" || c.status == "Excluído") &&
    !(reservas.any (fun r => r.carroId == c.id &&
        (if permitirDiaDevolucao then blocksTurnover r dataIni dataFim
         else blocksDefault r dataIni dataFim))))

/-- Outcome of the fleet "Marcar como EXCLUÍDO" button, app.py lines 1398-1409:
`Except.ok none` is the guard refusal (an error message, no UPDATE);
`Except.ok (some s)` is an UPDATE setting the vehicle status to s;
`Except.error k` is a Python KeyError on dictionary key k (no UPDATE issued). -/
def marcarExcluido (statusAtual : String) : Except String (Option String) :=
  match dictGet STATUS_CARRO "LOCADO" with
  | Except.error k => Except.error k
  | Except.ok locado =>
    match dictGet STATUS_CARRO "RESERVADO" with
    | Except.error k => Except.error k
    | Except.ok reservado =>
      if statusAtual == locado || statusAtual == reservado then
        Except.ok none
      else
        match dictGet STATUS_CARRO "EXCLUÍDO" with
        | Except.error k => Except.error k
        | Except.ok novo => Except.ok (some novo)

/-- A reservation's operational status together with the statuses of the fines
attached to it. -/
structure MultaState where
  reservaStatus : String
  multas : List String
deriving DecidableEq

/-- Fine registration, app.py lines 3674-3686: INSERT a fine with status Pendente
and set the reservation's operational status to Com Multa Pendente. -/
def registrarMulta (s : MultaState) : MultaState :=
  { reservaStatus := "Com Multa Pendente", multas := s.multas ++ ["Pendente"] }

/-- Fine status update, app.py lines 3778-3790: when the chosen status differs
from the current one, update the fine and set the reservation's operational
status to Finalizada when the new status is Paga, and to Com Multa Pendente
otherwise. -/
def atualizarStatusMulta (s : MultaState) (i : Nat) (novoStatus : String) :
    MultaState :=
  if s.multas.getD i "" == novoStatus then s
  else { reservaStatus := if novoStatus == "Paga" then "Finalizada" else "Com Multa Pendente",
         multas := s.multas.set i novoStatus }

/-! Helper lemmas about the association-list database operations. -/

theorem dbAny_eq_isSome {α : Type} (l : List (Nat × α)) (id : Nat) :
    l.any (fun p => p.1 == id) = (dbLookup l id).isSome := by
  induction l with
  | nil => rfl
  | cons a l ih =>
    by_cases h : (a.1 == id) = true
    · simp [dbLookup, List.find?_cons, List.any_cons, h]
    · simp [dbLookup, List.find?_cons, List.any_cons, h] at ih ⊢
      exact ih

theorem dbLookup_update {α : Type} (l : List (Nat × α)) (id : Nat) (f : α → α) :
    dbLookup (l.map (fun p => if p.1 == id then (p.1, f p.2) else p)) id =
      (dbLookup l id).map f := by
  induction l with
  | nil => rfl
  | cons a l ih =>
    simp only [List.map_cons]
    by_cases h : (a.1 == id) = true
    · rw [if_pos h]
      unfold dbLookup
      rw [@List.find?_cons_of_pos _ (fun p => p.1 == id) (a.1, f a.2) _ h,
        @List.find?_cons_of_pos _ (fun p => p.1 == id) a _ h]
      rfl
    · rw [if_neg h]
      unfold dbLookup
      rw [@List.find?_cons_of_neg _ (fun p => p.1 == id) a _ h,
        @List.find?_cons_of_neg _ (fun p => p.1 == id) a _ h]
      exact ih

theorem dbUpdate_eq_none {α : Type} (l : List (Nat × α)) (id : Nat) (f : α → α) :
    dbUpdate l id f = none ↔ dbLookup l id = none := by
  rw [dbUpdate, dbAny_eq_isSome]
  cases h : dbLookup l id <;> simp [h]

theorem dbUpdate_eq_some {α : Type} {l l2 : List (Nat × α)} {id : Nat} {f : α → α}
    (h : dbUpdate l id f = some l2) :
    dbLookup l2 id = (dbLookup l id).map f := by
  rw [dbUpdate] at h
  by_cases hc : l.any (fun p => p.1 == id) = true
  · rw [if_pos hc] at h
    cases h
    exact dbLookup_update l id f
  · rw [if_neg hc] at h
    cases h

theorem finalizarEntrega_rollback (db : DB) (carroId reservaId : Nat)
    (kmConfirma dataSaida : Int) (adiantamento valorRestante diaria : ℚ)
    (dataFimRes : Int) (pdfOk : Bool)
    (h : (finalizarEntrega db carroId reservaId kmConfirma dataSaida adiantamento
        valorRestante diaria dataFimRes pdfOk).2 = false) :
    (finalizarEntrega db carroId reservaId kmConfirma dataSaida adiantamento
        valorRestante diaria dataFimRes pdfOk).1 = db := by
  unfold finalizarEntrega at h ⊢
  cases h1 : dbUpdate db.carros carroId (entregaCarroUpdate kmConfirma) with
  | none => rfl
  | some carros1 =>
    rw [h1] at h
    cases h2 : dbUpdate db.reservas reservaId (entregaReservaUpdate kmConfirma
        dataSaida adiantamento valorRestante diaria dataFimRes) with
    | none => rfl
    | some reservas1 =>
      rw [h2] at h
      cases pdfOk with
      | false => rfl
      | true => simp at h

theorem finalizarEntrega_fails (db : DB) (carroId reservaId : Nat)
    (kmConfirma dataSaida : Int) (adiantamento valorRestante diaria : ℚ)
    (dataFimRes : Int) (pdfOk : Bool)
    (h : dbLookup db.carros carroId = none ∨
      dbLookup db.reservas reservaId = none ∨ pdfOk = false) :
    (finalizarEntrega db carroId reservaId kmConfirma dataSaida adiantamento
        valorRestante diaria dataFimRes pdfOk).2 = false := by
  unfold finalizarEntrega
  rcases h with h | h | h
  · rw [(dbUpdate_eq_none _ _ _).mpr h]
  · cases h1 : dbUpdate db.carros carroId (entregaCarroUpdate kmConfirma) with
    | none => rfl
    | some carros1 =>
      rw [(dbUpdate_eq_none _ _ _).mpr h]
  · cases h1 : dbUpdate db.carros carroId (entregaCarroUpdate kmConfirma) with
    | none => rfl
    | some carros1 =>
      cases h2 : dbUpdate db.reservas reservaId (entregaReservaUpdate kmConfirma
          dataSaida adiantamento valorRestante diaria dataFimRes) with
      | none => rfl
      | some reservas1 =>
        subst h
        rfl

theorem finalizarEntrega_success (db : DB) (carroId reservaId : Nat)
    (kmConfirma dataSaida : Int) (adiantamento valorRestante diaria : ℚ)
    (dataFimRes : Int) (pdfOk : Bool)
    (h : (finalizarEntrega db carroId reservaId kmConfirma dataSaida adiantamento
        valorRestante diaria dataFimRes pdfOk).2 = true) :
    pdfOk = true ∧
    dbLookup (finalizarEntrega db carroId reservaId kmConfirma dataSaida
        adiantamento valorRestante diaria dataFimRes pdfOk).1.carros carroId =
      (dbLookup db.carros carroId).map (entregaCarroUpdate kmConfirma) ∧
    dbLookup (finalizarEntrega db carroId reservaId kmConfirma dataSaida
        adiantamento valorRestante diaria dataFimRes pdfOk).1.reservas reservaId =
      (dbLookup db.reservas reservaId).map (entregaReservaUpdate kmConfirma
        dataSaida adiantamento valorRestante diaria dataFimRes) ∧
    (dbLookup db.carros carroId).isSome = true ∧
    (dbLookup db.reservas reservaId).isSome = true := by
  unfold finalizarEntrega at h ⊢
  cases h1 : dbUpdate db.carros carroId (entregaCarroUpdate kmConfirma) with
  | none => rw [h1] at h; simp at h
  | some carros1 =>
    rw [h1] at h
    cases h2 : dbUpdate db.reservas reservaId (entregaReservaUpdate kmConfirma
        dataSaida adiantamento valorRestante diaria dataFimRes) with
    | none => rw [h2] at h; simp at h
    | some reservas1 =>
      rw [h2] at h
      cases pdfOk with
      | false => simp at h
      | true =>
        have hc1 : (dbLookup db.carros carroId).isSome = true := by
          cases hn : dbLookup db.carros carroId with
          | none =>
            rw [(dbUpdate_eq_none _ _ _).mpr hn] at h1
            cases h1
          | some c => rfl
        have hr1 : (dbLookup db.reservas reservaId).isSome = true := by
          cases hn : dbLookup db.reservas reservaId with
          | none =>
            rw [(dbUpdate_eq_none _ _ _).mpr hn] at h2
            cases h2
          | some r => rfl
        exact ⟨rfl, by simpa using dbUpdate_eq_some h1,
          by simpa using dbUpdate_eq_some h2, hc1, hr1⟩

/-! Claim theorems. -/

/-- C1: the claimed km-charge rule (billable km = max(0, (kmIn − kmOut) − A), so
40.00 at kmOut 1000, kmIn 1350, A 300, R 0.80) is violated by the Devolução flow:
once the driven km exceed the allowance the code zeroes the allowance variable and
bills all 350 km, charging 280.00 — while the repository's own receipt-download
path computes 40.00 from the same data. -/
theorem C1_km_charge_failing_input :
    custoKmDevolucao 1000 1350 (some 300) (4 / 5) = 280 ∧
    custoKmRecibo 1000 1350 (some 300) (4 / 5) = 40 ∧
    custoKmDevolucao 1000 1350 (some 300) (4 / 5) ≠
      custoKmRecibo 1000 1350 (some 300) (4 / 5) := by
  refine ⟨?_, ?_, ?_⟩ <;> norm_num [custoKmDevolucao, custoKmRecibo]

/-- C3 counterexample: an edited reservation with daily rate 100, a 3-day window,
no half-day flag and discount 50 stores total_diarias = 300 — the raw charge —
whereas the claim's formula max(0, charge − discount) gives 250. -/
theorem C3_counterexample :
    totalDiariasEditRecalc 100 0 3 false = 300 ∧
    max 0 (valorDiarias 100 (diasPeriodo 0 3) false - 50) = 250 ∧
    totalDiariasEditRecalc 100 0 3 false ≠
      max 0 (valorDiarias 100 (diasPeriodo 0 3) false - 50) := by
  refine ⟨?_, ?_, ?_⟩ <;>
    norm_num [totalDiariasEditRecalc, valorDiarias, diasPeriodo]

/-- C3 amended: billable days are max(1, end − start) and the raw charge follows
the claimed half-day formula in both flows; the creation path stores
max(0, charge − discount), but the edit recompute stores the raw charge with no
discount subtracted. The claim's numeric scenarios hold on the creation path:
rate 100, 3 days, half-day → 250; without half-day → 300. -/
theorem C3_daily_charge_amended (diaria : ℚ) (dataIni dataFim : Int)
    (meiaDiaria : Bool) (desconto : ℚ) :
    totalDiariasCriacao diaria dataIni dataFim meiaDiaria desconto =
      max 0 (chargeSpec diaria (max 1 (dataFim - dataIni)) meiaDiaria - desconto) ∧
    totalDiariasEditRecalc diaria dataIni dataFim meiaDiaria =
      chargeSpec diaria (max 1 (dataFim - dataIni)) meiaDiaria ∧
    totalDiariasCriacao 100 0 3 true 0 = 250 ∧
    totalDiariasCriacao 100 0 3 false 0 = 300 := by
  have hpos : (0 : Int) < max 1 (dataFim - dataIni) :=
    lt_of_lt_of_le one_pos (le_max_left _ _)
  refine ⟨?_, ?_, ?_, ?_⟩
  · cases meiaDiaria <;>
      simp [totalDiariasCriacao, valorDiarias, chargeSpec, diasPeriodo, hpos]
  · cases meiaDiaria <;>
      simp [totalDiariasEditRecalc, valorDiarias, chargeSpec, diasPeriodo, hpos]
  · norm_num [totalDiariasCriacao, valorDiarias, diasPeriodo]
  · norm_num [totalDiariasCriacao, valorDiarias, diasPeriodo]

/-- C2 counterexample: register a Pendente fine against a Finalizada reservation,
then mark the fine Isentada (Exempt). No Pendente fine remains, yet the code sets
the reservation's operational status to Com Multa Pendente, not Finalizada. -/
theorem C2_counterexample :
    (atualizarStatusMulta (registrarMulta ⟨"Finalizada", []⟩) 0
        "Isentada").multas.contains "Pendente" = false ∧
    (atualizarStatusMulta (registrarMulta ⟨"Finalizada", []⟩) 0
        "Isentada").reservaStatus = "Com Multa Pendente" ∧
    (atualizarStatusMulta (registrarMulta ⟨"Finalizada", []⟩) 0
        "Isentada").reservaStatus ≠ "Finalizada" := by
  refine ⟨?_, ?_, ?_⟩ <;> decide

/-- C2 amended: updating a fine to a different status sets the reservation's
operational status to Finalizada exactly when the new status is Paga — with no
check of the reservation's other fines — and to Com Multa Pendente in every other
case, Isentada (Exempt) included; registering a fine always sets Com Multa
Pendente. The claim's scenario (a Pendente fine on a Finalizada reservation, then
marked Paga) therefore does end at Finalizada. -/
theorem C2_fine_status_amended (s : MultaState) (i : Nat) (novoStatus : String)
    (hchange : s.multas.getD i "" ≠ novoStatus) :
    (atualizarStatusMulta s i novoStatus).reservaStatus =
      (if novoStatus = "Paga" then "Finalizada" else "Com Multa Pendente") ∧
    (registrarMulta s).reservaStatus = "Com Multa Pendente" := by
  constructor
  · have hb : ¬(s.multas.getD i "" == novoStatus) = true := by
      simpa using hchange
    rw [atualizarStatusMulta, if_neg hb]
    simp
  · rfl

/-- C2 amended witness: the claim's concrete scenario, registering a Pendente fine
against a Finalizada reservation and marking it Paga. -/
theorem C2_fine_status_amended_witness :
    (atualizarStatusMulta (registrarMulta ⟨"Finalizada", []⟩) 0
        "Paga").reservaStatus =
      (if ("Paga" : String) = "Paga" then "Finalizada" else "Com Multa Pendente") ∧
    (registrarMulta (registrarMulta ⟨"Finalizada", []⟩)).reservaStatus =
      "Com Multa Pendente" :=
  C2_fine_status_amended (registrarMulta ⟨"Finalizada", []⟩) 0 "Paga" (by decide)

/-- C7: attempting to mark a Locado (Rented) or Reservado (Reserved) vehicle as
excluded is refused: the handler shows an error and returns without issuing any
UPDATE, so the vehicle's status is unchanged. -/
theorem C7_soft_delete_guard (statusAtual : String)
    (h : statusAtual = "Locado" ∨ statusAtual = "Reservado") :
    marcarExcluido statusAtual = Except.ok none := by
  rcases h with h | h <;> subst h <;> rfl

/-- C7 witness: the guard refuses for a Locado vehicle. -/
theorem C7_soft_delete_guard_witness :
    marcarExcluido "Locado" = Except.ok none :=
  C7_soft_delete_guard "Locado" (Or.inl rfl)

/-- C9: for any vehicle status other than Locado and Reservado, the exclusion
handler evaluates STATUS_CARRO with the accented key EXCLUÍDO, which is absent
(the stored key is EXCLUIDO), so it raises KeyError before any UPDATE; moreover
no input whatsoever makes this handler issue an UPDATE. -/
theorem C9_excluded_keyerror (statusAtual : String)
    (h1 : statusAtual ≠ "Locado") (h2 : statusAtual ≠ "Reservado") :
    marcarExcluido statusAtual = Except.error "EXCLUÍDO" ∧
    ∀ s novoStatus, marcarExcluido s ≠ Except.ok (some novoStatus) := by
  have hred : ∀ s : String, marcarExcluido s =
      if (s == "Locado" || s == "Reservado") = true then Except.ok none
      else Except.error "EXCLUÍDO" := fun s => rfl
  constructor
  · rw [hred, if_neg]
    simp [h1, h2]
  · intro s novoStatus
    rw [hred]
    by_cases hs : (s == "Locado" || s == "Reservado") = true
    · rw [if_pos hs]
      simp
    · rw [if_neg hs]
      simp

/-- C9 witness: a Disponível vehicle hits the KeyError, and no status value ever
yields an UPDATE. -/
theorem C9_excluded_keyerror_witness :
    marcarExcluido "Disponível" = Except.error "EXCLUÍDO" ∧
    ∀ s novoStatus, marcarExcluido s ≠ Except.ok (some novoStatus) :=
  C9_excluded_keyerror "Disponível" (by decide) (by decide)

/-- C8: the Devolução odometer-in form field is bounded below by the recorded
odometer-out, so a strictly smaller value is rejected and the return is not
processed, and every processed return records odometer-in ≥ odometer-out. -/
theorem C8_odometer_monotonic (inp : DevolucaoInput) (k : Int)
    (hrec : inp.kmSaidaRec = some k) :
    (inp.kmVolta < k → devolucao inp = none) ∧
    (∀ res, devolucao inp = some res → k ≤ res.kmVolta) := by
  have hsafe : kmSaidaSafe inp = k := by simp [kmSaidaSafe, hrec]
  constructor
  · intro hlt
    simp [devolucao, hsafe, hlt]
  · intro res hres
    by_cases hlt : inp.kmVolta < kmSaidaSafe inp
    · simp [devolucao, hlt] at hres
    · have hle : k ≤ inp.kmVolta := le_of_not_lt (hsafe ▸ hlt)
      simp only [devolucao, if_neg hlt] at hres
      injection hres with hres
      rw [← hres]
      exact hle

/-- C8 witness: a return attempt with recorded odometer-out 1000 and odometer-in
900 is rejected. -/
theorem C8_odometer_monotonic_witness :
    ((900 : Int) < 1000 →
      devolucao ⟨0, 0, some 1000, 900, none, 0, 0, 0, 0, 0, 0⟩ = none) ∧
    (∀ res, devolucao ⟨0, 0, some 1000, 900, none, 0, 0, 0, 0, 0, 0⟩ = some res →
      (1000 : Int) ≤ res.kmVolta) :=
  C8_odometer_monotonic ⟨0, 0, some 1000, 900, none, 0, 0, 0, 0, 0, 0⟩ 1000 rfl

/-- C5: every processed return persists valor_restante = max(0, persisted grand
total − advance − payment processed), and the persisted balance is never
negative. -/
theorem C5_balance_invariant (inp : DevolucaoInput) (res : DevolucaoPersisted)
    (h : devolucao inp = some res) :
    res.valorRestante =
      max 0 (res.valorTotal - inp.adiantamento - res.valorPago) ∧
    0 ≤ res.valorRestante := by
  by_cases hkm : inp.kmVolta < kmSaidaSafe inp
  · simp [devolucao, hkm] at h
  · simp only [devolucao, if_neg hkm, Option.some.injEq] at h
    subst h
    by_cases hT : 0 < inp.totalDiariasStored +
        custoKmDevolucao (kmSaidaSafe inp) inp.kmVolta inp.kmFranquia inp.precoKm +
        inp.valorLavagem + inp.valorMultas + inp.valorDanos + inp.valorOutros -
        inp.adiantamento
    · simp only [hT, if_true]
      constructor
      · exact max_eq_right (le_max_left _ _)
      · exact le_max_left _ _
    · simp only [hT, if_false]
      constructor
      · rw [eq_comm, max_eq_left]
        simpa using le_of_not_lt hT
      · exact le_refl 0

/-- C5 witness: a return with stored diaries 250, advance 100, km 1000 → 1350,
allowance 300, rate 0.80 and payment 430 persists grand total 530 and remaining
balance 0 = max(0, 530 − 100 − 430). -/
theorem C5_balance_invariant_witness :
    (⟨"Finalizada", "Finalizada", 1350, 530, 250, 0, 430, "Disponível", 1350⟩ :
        DevolucaoPersisted).valorRestante =
      max 0 ((⟨"Finalizada", "Finalizada", 1350, 530, 250, 0, 430, "Disponível",
          1350⟩ : DevolucaoPersisted).valorTotal -
        (⟨250, 100, some 1000, 1350, some 300, 4 / 5, 0, 0, 0, 0, 430⟩ :
          DevolucaoInput).adiantamento -
        (⟨"Finalizada", "Finalizada", 1350, 530, 250, 0, 430, "Disponível",
          1350⟩ : DevolucaoPersisted).valorPago) ∧
    0 ≤ (⟨"Finalizada", "Finalizada", 1350, 530, 250, 0, 430, "Disponível",
        1350⟩ : DevolucaoPersisted).valorRestante :=
  C5_balance_invariant
    ⟨250, 100, some 1000, 1350, some 300, 4 / 5, 0, 0, 0, 0, 430⟩
    ⟨"Finalizada", "Finalizada", 1350, 530, 250, 0, 430, "Disponível", 1350⟩
    (by norm_num [devolucao, custoKmDevolucao, kmSaidaSafe])

/-- C4: a vehicle whose status is neither Indisponível nor Excluído and whose only
reservation ends exactly on the requested start day (a Reservada/Locada booking
returning on day D, request starting on D) is excluded by get_available_vehicles
under the default rule (non-strict overlap) and included when the same-day
turnover flag is set (strict overlap). -/
theorem C4_same_day_turnover (carros : List CarroRow) (reservas : List ReservaRow)
    (c : CarroRow) (r : ReservaRow) (dataFimReq : Int)
    (hc : c ∈ carros)
    (hs1 : c.status ≠ "Indisponível") (hs2 : c.status ≠ "Excluído")
    (hr : r ∈ reservas) (hrc : r.carroId = c.id)
    (hst : r.reservaStatus = "Reservada" ∨ r.reservaStatus = "Locada")
    (hwf : r.dataIni ≤ r.dataFim) (hreq : r.dataFim ≤ dataFimReq)
    (honly : ∀ r2 ∈ reservas, r2.carroId = c.id → r2 = r) :
    c ∉ getAvailableVehicles carros reservas r.dataFim dataFimReq false ∧
    c ∈ getAvailableVehicles carros reservas r.dataFim dataFimReq true := by
  have hIni : r.dataIni ≤ dataFimReq := le_trans hwf hreq
  constructor
  · intro hmem
    rw [getAvailableVehicles, List.mem_filter] at hmem
    have hb : blocksDefault r r.dataFim dataFimReq = true := by
      rcases hst with h | h <;> simp [blocksDefault, h, hIni]
    have hany : reservas.any (fun r2 => r2.carroId == c.id &&
        (if false then blocksTurnover r2 r.dataFim dataFimReq
         else blocksDefault r2 r.dataFim dataFimReq)) = true := by
      rw [List.any_eq_true]
      exact ⟨r, hr, by simp [hrc, hb]⟩
    rw [hany] at hmem
    simp at hmem
  · rw [getAvailableVehicles, List.mem_filter]
    refine ⟨hc, ?_⟩
    have hany : reservas.any (fun r2 => r2.carroId == c.id &&
        (if true then blocksTurnover r2 r.dataFim dataFimReq
         else blocksDefault r2 r.dataFim dataFimReq)) = false := by
      rw [List.any_eq_false]
      intro r2 hr2
      by_cases hid : r2.carroId = c.id
      · have h2 := honly r2 hr2 hid
        subst h2
        simp [blocksTurnover]
      · simp [hid]
    rw [hany]
    simp [hs1, hs2]

/-- C4 witness: vehicle 1 (Disponível) with a single Locada reservation over days
5-10 is excluded for a request over days 10-12 by the default rule and included
with the turnover flag. -/
theorem C4_same_day_turnover_witness :
    (⟨1, "Disponível"⟩ : CarroRow) ∉
      getAvailableVehicles [⟨1, "Disponível"⟩] [⟨1, "Locada", 5, 10⟩] 10 12 false ∧
    (⟨1, "Disponível"⟩ : CarroRow) ∈
      getAvailableVehicles [⟨1, "Disponível"⟩] [⟨1, "Locada", 5, 10⟩] 10 12 true :=
  C4_same_day_turnover [⟨1, "Disponível"⟩] [⟨1, "Locada", 5, 10⟩]
    ⟨1, "Disponível"⟩ ⟨1, "Locada", 5, 10⟩ 12 (by decide) (by decide) (by decide)
    (by decide) (by decide) (by decide) (by decide) (by decide) (by decide)

/-- C6: the delivery transaction is atomic — whenever it reports failure the
database is returned in its pre-transaction state (both rows untouched); it does
fail whenever the vehicle row is missing, the reservation row is missing, or the
contract generation fails; and whenever it reports success both the vehicle row
and the reservation row carry all the delivery updates together. -/
theorem C6_deliver_atomic (db : DB) (carroId reservaId : Nat)
    (kmConfirma dataSaida : Int) (adiantamento valorRestante diaria : ℚ)
    (dataFimRes : Int) (pdfOk : Bool) :
    ((finalizarEntrega db carroId reservaId kmConfirma dataSaida adiantamento
        valorRestante diaria dataFimRes pdfOk).2 = false →
      (finalizarEntrega db carroId reservaId kmConfirma dataSaida adiantamento
        valorRestante diaria dataFimRes pdfOk).1 = db) ∧
    (dbLookup db.carros carroId = none ∨ dbLookup db.reservas reservaId = none ∨
        pdfOk = false →
      (finalizarEntrega db carroId reservaId kmConfirma dataSaida adiantamento
        valorRestante diaria dataFimRes pdfOk).2 = false) ∧
    ((finalizarEntrega db carroId reservaId kmConfirma dataSaida adiantamento
        valorRestante diaria dataFimRes pdfOk).2 = true →
      dbLookup (finalizarEntrega db carroId reservaId kmConfirma dataSaida
          adiantamento valorRestante diaria dataFimRes pdfOk).1.carros carroId =
        (dbLookup db.carros carroId).map (entregaCarroUpdate kmConfirma) ∧
      dbLookup (finalizarEntrega db carroId reservaId kmConfirma dataSaida
          adiantamento valorRestante diaria dataFimRes pdfOk).1.reservas reservaId =
        (dbLookup db.reservas reservaId).map (entregaReservaUpdate kmConfirma
          dataSaida adiantamento valorRestante diaria dataFimRes) ∧
      (dbLookup db.carros carroId).isSome = true ∧
      (dbLookup db.reservas reservaId).isSome = true) :=
  ⟨finalizarEntrega_rollback db carroId reservaId kmConfirma dataSaida adiantamento
      valorRestante diaria dataFimRes pdfOk,
   finalizarEntrega_fails db carroId reservaId kmConfirma dataSaida adiantamento
      valorRestante diaria dataFimRes pdfOk,
   fun h => (finalizarEntrega_success db carroId reservaId kmConfirma dataSaida
      adiantamento valorRestante diaria dataFimRes pdfOk h).2⟩

/-- C6 witness: with contract generation failing, the delivery leaves the concrete
one-vehicle, one-reservation database exactly as it was. -/
theorem C6_deliver_atomic_witness :
    (finalizarEntrega ⟨[(1, ⟨"Reservado", 500⟩)],
        [(7, ⟨500, 0, 3, "Reservada", 50, 300, 0, false, 300, 250⟩)]⟩
      1 7 520 1 350 0 100 3 false).1 =
      ⟨[(1, ⟨"Reservado", 500⟩)],
        [(7, ⟨500, 0, 3, "Reservada", 50, 300, 0, false, 300, 250⟩)]⟩ :=
  (C6_deliver_atomic ⟨[(1, ⟨"Reservado", 500⟩)],
      [(7, ⟨500, 0, 3, "Reservada", 50, 300, 0, false, 300, 250⟩)]⟩
    1 7 520 1 350 0 100 3 false).1
    ((C6_deliver_atomic ⟨[(1, ⟨"Reservado", 500⟩)],
        [(7, ⟨500, 0, 3, "Reservada", 50, 300, 0, false, 300, 250⟩)]⟩
      1 7 520 1 350 0 100 3 false).2.1 (Or.inr (Or.inr rfl)))

/-- C10 counterexample: delivering a reservation whose stored total_diarias is 0
(daily rate 100, scheduled window day 0 → day 2, no advance, nothing collected)
persists valor_restante = 300, because the handler falls back to recomputing the
expected value as dailyRate × max(1, inclusive day count); the claim's formula
max(0, stored total-diaries − advance − collected) gives 0. -/
theorem C10_counterexample :
    (dbLookup (entregaSubmit ⟨[(1, ⟨"Reservado", 100⟩)],
        [(7, ⟨100, 0, 2, "Reservada", 0, 0, 0, false, 0, 0⟩)]⟩
      1 7 0 0 2 100 0 120 0 0 true).1.reservas 7).map Reserva.valorRestante =
      some 300 ∧
    (300 : ℚ) ≠ max 0 (0 - 0 - 0) := by
  constructor
  · norm_num [entregaSubmit, finalizarEntrega, dbUpdate, dbLookup,
      entregaCarroUpdate, entregaReservaUpdate, List.find?]
  · norm_num

/-- C10 amended: on a successful delivery the reservation row is overwritten with
odometer-out, the actual departure date, status Locada, advance := previous
advance + amount collected now, grand total := dailyRate × max(1, scheduled end −
actual departure) — ignoring the half-day flag, the discount and the stored
total-diaries, which keep their previous values — and remaining balance :=
max(0, P − advance − collected), where P is the stored total-diaries when nonzero
and dailyRate × max(1, scheduled end − scheduled start + 1) otherwise. -/
theorem C10_deliver_overwrite_amended (db : DB) (carroId reservaId : Nat)
    (totalDiariasStored : ℚ) (dataIniRes dataFimRes : Int) (diaria : ℚ)
    (adiantamentoReserva : ℚ) (kmConfirma dataSaida : Int) (valorPagoAgora : ℚ)
    (pdfOk : Bool) (r0 : Reserva)
    (hres : dbLookup db.reservas reservaId = some r0)
    (hsucc : (entregaSubmit db carroId reservaId totalDiariasStored dataIniRes
        dataFimRes diaria adiantamentoReserva kmConfirma dataSaida valorPagoAgora
        pdfOk).2 = true) :
    dbLookup (entregaSubmit db carroId reservaId totalDiariasStored dataIniRes
        dataFimRes diaria adiantamentoReserva kmConfirma dataSaida valorPagoAgora
        pdfOk).1.reservas reservaId =
      some { r0 with
        kmSaida := kmConfirma, dataIni := dataSaida, reservaStatus := "Locada",
        adiantamento := adiantamentoReserva + valorPagoAgora,
        valorTotal := diaria * ((max 1 (dataFimRes - dataSaida) : Int) : ℚ),
        valorRestante := max 0 ((if totalDiariasStored = 0 then
            ((max 1 (dataFimRes - dataIniRes + 1) : Int) : ℚ) * diaria
          else totalDiariasStored) - (adiantamentoReserva + valorPagoAgora)) } := by
  have h := (finalizarEntrega_success db carroId reservaId kmConfirma dataSaida
    (adiantamentoReserva + valorPagoAgora)
    (max 0 ((if totalDiariasStored = 0 then
        ((max 1 (dataFimRes - dataIniRes + 1) : Int) : ℚ) * diaria
      else totalDiariasStored) - (adiantamentoReserva + valorPagoAgora)))
    diaria dataFimRes pdfOk hsucc).2.2.1
  rw [show (entregaSubmit db carroId reservaId totalDiariasStored dataIniRes
      dataFimRes diaria adiantamentoReserva kmConfirma dataSaida valorPagoAgora
      pdfOk) = finalizarEntrega db carroId reservaId kmConfirma dataSaida
        (adiantamentoReserva + valorPagoAgora)
        (max 0 ((if totalDiariasStored = 0 then
            ((max 1 (dataFimRes - dataIniRes + 1) : Int) : ℚ) * diaria
          else totalDiariasStored) - (adiantamentoReserva + valorPagoAgora)))
        diaria dataFimRes pdfOk from rfl]
  rw [h, hres]
  rfl

/-- C10 amended witness: a concrete successful delivery (stored total-diaries 300,
advance 0, nothing collected, schedule day 0 → day 3, departure day 1). -/
theorem C10_deliver_overwrite_amended_witness :
    dbLookup (entregaSubmit ⟨[(1, ⟨"Reservado", 500⟩)],
        [(7, ⟨500, 0, 3, "Reservada", 0, 300, 0, false, 300, 300⟩)]⟩
      1 7 300 0 3 100 0 520 1 0 true).1.reservas 7 =
      some { (⟨500, 0, 3, "Reservada", 0, 300, 0, false, 300, 300⟩ : Reserva) with
        kmSaida := 520, dataIni := 1, reservaStatus := "Locada",
        adiantamento := (0 : ℚ) + 0,
        valorTotal := (100 : ℚ) * ((max 1 ((3 : Int) - 1) : Int) : ℚ),
        valorRestante := max 0 ((if (300 : ℚ) = 0 then
            ((max 1 ((3 : Int) - 0 + 1) : Int) : ℚ) * 100
          else 300) - ((0 : ℚ) + 0)) } :=
  C10_deliver_overwrite_amended ⟨[(1, ⟨"Reservado", 500⟩)],
      [(7, ⟨500, 0, 3, "Reservada", 0, 300, 0, false, 300, 300⟩)]⟩
    1 7 300 0 3 100 0 520 1 0 true
    ⟨500, 0, 3, "Reservada", 0, 300, 0, false, 300, 300⟩ rfl rfl

end Locadora
